import Mathlib

/-!
Verification of the WOPR router plugin core (`src/index.ts`, `src/stats.ts`,
`src/webmcp-tools.ts`): a shallow embedding of the rule-matching and fan-out
dispatch engine together with its statistics subsystem, followed by theorems
about routing, failure isolation, statistics bookkeeping and report
formatting.

Modelling conventions:
- TypeScript optional fields become `Option`; JavaScript truthiness of an
  optional string (`undefined` and `""` are falsy) is `strTruthy`.
- Host capabilities (`ctx.inject`, `adapter.send`, `ctx.getChannelsForSession`)
  are parameters describing the outcome of each call; every effect performed
  by the dispatch loops (deliveries, send attempts, failures, log calls) is
  recorded in an explicit event trace.
- `Record<string, number>` becomes an insertion-ordered association list:
  `stats.routeHits[key] = (stats.routeHits[key] || 0) + 1` updates an
  existing key in place and appends a fresh key at the end.
- Aliasing questions about `getStats()` are settled in a small heap model
  where record objects live at addresses and the object spread `{ ...m }`
  allocates a fresh address.
-/

namespace WoprRouter

/-- `Channel` from src/index.ts: `{ type: string; id: string }`. -/
structure Channel where
  type : String
  id : String
deriving DecidableEq, Repr

/-- `Route` (incoming routing rule) from src/index.ts; all fields optional. -/
structure Route where
  sourceSession : Option String
  targetSessions : Option (List String)
  channelType : Option String
  channelId : Option String
deriving DecidableEq, Repr

/-- `OutgoingRoute` from src/index.ts; all fields optional. -/
structure OutgoingRoute where
  sourceSession : Option String
  channelType : Option String
  channelId : Option String
deriving DecidableEq, Repr

/-- `RouterConfig` from src/index.ts (the `uiPort` field is UI-only and not
part of the routing core). Both lists may be absent. -/
structure RouterConfig where
  routes : Option (List Route)
  outgoingRoutes : Option (List OutgoingRoute)
deriving DecidableEq, Repr

/-- `IncomingInput` from src/index.ts. -/
structure IncomingInput where
  session : String
  channel : Option Channel
  message : String
deriving DecidableEq, Repr

/-- `OutgoingOutput` from src/index.ts. -/
structure OutgoingOutput where
  session : String
  response : String
deriving DecidableEq, Repr

/-- A channel adapter bound to a session: its channel identity plus the
outcome of invoking its `send` capability (`true` = the promise resolves,
`false` = it rejects). -/
structure ChannelAdapter where
  channel : Channel
  sendOk : Bool
deriving DecidableEq, Repr

/-- JavaScript truthiness of an optional string: `undefined` and `""` are
falsy, every other string is truthy. -/
def strTruthy : Option String → Bool
  | none => false
  | some s => s ≠ ""

/-- `RoutingStats` from src/stats.ts. `routeHits` is the
`Record<string, number>` ledger as an insertion-ordered association list. -/
structure RoutingStats where
  messagesRouted : Nat
  routeHits : List (String × Nat)
  errors : Nat
  outgoingRouted : Nat
  startedAt : Nat
deriving DecidableEq, Repr

/-- `incrementRouted` from src/stats.ts. -/
def incrementRouted (s : RoutingStats) : RoutingStats :=
  { s with messagesRouted := s.messagesRouted + 1 }

/-- `incrementOutgoingRouted` from src/stats.ts. -/
def incrementOutgoingRouted (s : RoutingStats) : RoutingStats :=
  { s with outgoingRouted := s.outgoingRouted + 1 }

/-- `incrementErrors` from src/stats.ts. -/
def incrementErrors (s : RoutingStats) : RoutingStats :=
  { s with errors := s.errors + 1 }

/-- The composite route-hit key `` `${source}->${target}` `` from
`recordRouteHit` in src/stats.ts. -/
def routeKey (source target : String) : String :=
  source ++ "->" ++ target

/-- `stats.routeHits[key] = (stats.routeHits[key] || 0) + 1` on the
association list: bump the first entry with this key in place, or append the
key at count 1 when absent. -/
def bumpKey (key : String) : List (String × Nat) → List (String × Nat)
  | [] => [(key, 1)]
  | (k, v) :: rest =>
    if k = key then (k, v + 1) :: rest else (k, v) :: bumpKey key rest

/-- `recordRouteHit` from src/stats.ts. -/
def recordRouteHit (source target : String) (s : RoutingStats) : RoutingStats :=
  { s with routeHits := bumpKey (routeKey source target) s.routeHits }

/-- Read a count out of the route-hit ledger (`stats.routeHits[key] || 0`). -/
def hitCount (key : String) (l : List (String × Nat)) : Nat :=
  match l with
  | [] => 0
  | (k, v) :: rest => if k = key then v else hitCount key rest

/-- `matchesRoute` from src/index.ts, line for line: each guard tests the
JS-truthiness of the rule field and then strict inequality against the
message field (`input.channel?.type` is `none` when the channel is absent). -/
def matchesRoute (route : Route) (input : IncomingInput) : Bool :=
  if strTruthy route.sourceSession && (route.sourceSession != some input.session) then
    false
  else if strTruthy route.channelType && (route.channelType != input.channel.map Channel.type) then
    false
  else if strTruthy route.channelId && (route.channelId != input.channel.map Channel.id) then
    false
  else
    true

/-- One observable effect of a dispatch: an incoming delivery
(`ctx.inject` resolved), an incoming delivery failure (`ctx.inject`
rejected), an outgoing send (`adapter.send` resolved), an outgoing send
failure (`adapter.send` rejected), or a call to the host logger
(`ctx.log.*`). -/
inductive Event where
  | delivered (target : String) (message : String)
  | deliveryFailed (target : String)
  | sent (channel : Channel) (response : String)
  | sendFailed (channel : Channel)
  | logged (text : String)
deriving DecidableEq, Repr

/-- Is the event a successful incoming delivery? -/
def Event.isDelivered : Event → Bool
  | .delivered _ _ => true
  | _ => false

/-- Is the event an incoming delivery failure? -/
def Event.isDeliveryFailed : Event → Bool
  | .deliveryFailed _ => true
  | _ => false

/-- Is the event a successful outgoing send? -/
def Event.isSent : Event → Bool
  | .sent _ _ => true
  | _ => false

/-- Is the event an outgoing send failure? -/
def Event.isSendFailed : Event → Bool
  | .sendFailed _ => true
  | _ => false

/-- Is the event a call to the host logger? -/
def Event.isLogged : Event → Bool
  | .logged _ => true
  | _ => false

/-- The guard of the `continue` in `fanOutToSessions` from src/index.ts:
`!target || target === input.session` — the target is skipped when it is
blank (falsy) or equals the source session. -/
def skipTarget (input : IncomingInput) (t : String) : Bool :=
  t == "" || t == input.session

/-- The loop body of `fanOutToSessions` from src/index.ts over an explicit
target list. `inject target message` gives the outcome of the host's
`ctx.inject(target, message)` call. A blank target (falsy `!target`) or a
target equal to the source session is skipped (`continue`); a successful
injection runs `incrementRouted()` then `recordRouteHit(input.session,
target)`; a rejected injection is caught and runs `incrementErrors()` only
(the catch block in src/index.ts performs no logging). -/
def runTargets (inject : String → String → Bool) (input : IncomingInput) :
    List String → RoutingStats → RoutingStats × List Event
  | [], s => (s, [])
  | t :: rest, s =>
    if skipTarget input t then
      runTargets inject input rest s
    else if inject t input.message then
      let s1 := recordRouteHit input.session t (incrementRouted s)
      let p := runTargets inject input rest s1
      (p.1, Event.delivered t input.message :: p.2)
    else
      let p := runTargets inject input rest (incrementErrors s)
      (p.1, Event.deliveryFailed t :: p.2)

/-- `fanOutToSessions` from src/index.ts:
`const targets = route.targetSessions || []` then the per-target loop. -/
def fanOutToSessions (inject : String → String → Bool) (route : Route)
    (input : IncomingInput) (s : RoutingStats) : RoutingStats × List Event :=
  runTargets inject input (route.targetSessions.getD []) s

/-- The rule loop of the `onIncoming` middleware handler from src/index.ts:
skip routes failing `matchesRoute`, fan each matching route out. -/
def runRoutes (inject : String → String → Bool) (input : IncomingInput) :
    List Route → RoutingStats → RoutingStats × List Event
  | [], s => (s, [])
  | r :: rest, s =>
    if matchesRoute r input then
      let p := fanOutToSessions inject r input s
      let q := runRoutes inject input rest p.1
      (q.1, p.2 ++ q.2)
    else
      runRoutes inject input rest s

/-- The `onIncoming` middleware handler from src/index.ts: reads
`config.routes || []`, runs every matching route's fan-out in declared
order, and returns `input.message`. The result is (final stats, event
trace, returned text). -/
def onIncoming (inject : String → String → Bool) (config : RouterConfig)
    (input : IncomingInput) (s : RoutingStats) :
    RoutingStats × List Event × String :=
  let p := runRoutes inject input (config.routes.getD []) s
  (p.1, p.2, input.message)

/-- The adapter loop of `fanOutToChannels` from src/index.ts over the list
returned by `ctx.getChannelsForSession(output.session)`: skip adapters
failing a truthy `channelType`/`channelId` constraint, then attempt
`adapter.send(output.response)`; success runs `incrementOutgoingRouted()`,
a rejection is caught and runs `incrementErrors()` only. -/
def runAdapters (route : OutgoingRoute) (output : OutgoingOutput) :
    List ChannelAdapter → RoutingStats → RoutingStats × List Event
  | [], s => (s, [])
  | a :: rest, s =>
    if strTruthy route.channelType && (some a.channel.type != route.channelType) then
      runAdapters route output rest s
    else if strTruthy route.channelId && (some a.channel.id != route.channelId) then
      runAdapters route output rest s
    else if a.sendOk then
      let p := runAdapters route output rest (incrementOutgoingRouted s)
      (p.1, Event.sent a.channel output.response :: p.2)
    else
      let p := runAdapters route output rest (incrementErrors s)
      (p.1, Event.sendFailed a.channel :: p.2)

/-- `fanOutToChannels` from src/index.ts: fetch the adapters bound to
`output.session` from the host capability, then run the adapter loop. -/
def fanOutToChannels (getChannels : String → List ChannelAdapter)
    (route : OutgoingRoute) (output : OutgoingOutput) (s : RoutingStats) :
    RoutingStats × List Event :=
  runAdapters route output (getChannels output.session) s

/-- The guard of the `continue` in the `onOutgoing` rule loop from
src/index.ts: `route.sourceSession && route.sourceSession !==
output.session` — skip when the rule's `sourceSession` is truthy and
differs from the output's session. -/
def skipOutRoute (output : OutgoingOutput) (r : OutgoingRoute) : Bool :=
  strTruthy r.sourceSession && (r.sourceSession != some output.session)

/-- The rule loop of the `onOutgoing` middleware handler from src/index.ts:
`if (route.sourceSession && route.sourceSession !== output.session)
continue`, else fan out to channels. -/
def runOutRoutes (getChannels : String → List ChannelAdapter)
    (output : OutgoingOutput) :
    List OutgoingRoute → RoutingStats → RoutingStats × List Event
  | [], s => (s, [])
  | r :: rest, s =>
    if skipOutRoute output r then
      runOutRoutes getChannels output rest s
    else
      let p := fanOutToChannels getChannels r output s
      let q := runOutRoutes getChannels output rest p.1
      (q.1, p.2 ++ q.2)

/-- The `onOutgoing` middleware handler from src/index.ts: reads
`config.outgoingRoutes || []`, runs surviving rules in declared order, and
returns `output.response`. -/
def onOutgoing (getChannels : String → List ChannelAdapter)
    (config : RouterConfig) (output : OutgoingOutput) (s : RoutingStats) :
    RoutingStats × List Event × String :=
  let p := runOutRoutes getChannels output (config.outgoingRoutes.getD []) s
  (p.1, p.2, output.response)

/-- The event trace `fanOutToSessions` produces on a target list, written
directly: every non-skipped target is attempted, in order, independently of
the outcomes on earlier targets. -/
def targetEvents (inject : String → String → Bool) (input : IncomingInput)
    (ts : List String) : List Event :=
  (ts.filter (fun t => !skipTarget input t)).map
    (fun t =>
      if inject t input.message then Event.delivered t input.message
      else Event.deliveryFailed t)

/-- The event trace one matching incoming route produces. -/
def routeEvents (inject : String → String → Bool) (input : IncomingInput)
    (r : Route) : List Event :=
  targetEvents inject input (r.targetSessions.getD [])

/-- The adapter filter of `fanOutToChannels`: an adapter passes when every
truthy `channelType`/`channelId` constraint equals its channel field. -/
def passesChannel (route : OutgoingRoute) (a : ChannelAdapter) : Bool :=
  !(strTruthy route.channelType && (some a.channel.type != route.channelType)) &&
  !(strTruthy route.channelId && (some a.channel.id != route.channelId))

/-- The event trace `fanOutToChannels` produces on an adapter list, written
directly: every passing adapter is attempted, in order, independently of the
outcomes on earlier adapters. -/
def adapterEvents (route : OutgoingRoute) (output : OutgoingOutput)
    (as : List ChannelAdapter) : List Event :=
  (as.filter (passesChannel route)).map
    (fun a =>
      if a.sendOk then Event.sent a.channel output.response
      else Event.sendFailed a.channel)

/-- Number of successful incoming deliveries in a trace. -/
def deliveredCount (evs : List Event) : Nat :=
  (evs.filter Event.isDelivered).length

/-- Number of incoming delivery failures in a trace. -/
def failedCount (evs : List Event) : Nat :=
  (evs.filter Event.isDeliveryFailed).length

/-- Number of successful outgoing sends in a trace. -/
def sentCount (evs : List Event) : Nat :=
  (evs.filter Event.isSent).length

/-- Number of outgoing send failures in a trace. -/
def sendFailedCount (evs : List Event) : Nat :=
  (evs.filter Event.isSendFailed).length

/-- The route-hit keys recorded by the successful deliveries of a trace,
for a message arriving from `source`. -/
def deliveredKeys (source : String) (evs : List Event) : List String :=
  evs.filterMap (fun e =>
    match e with
    | Event.delivered t _ => some (routeKey source t)
    | _ => none)

/-- The stats value right after module initialization or `resetStats`, with
the wall-clock `startedAt` abstracted to 0. -/
def statsZero : RoutingStats :=
  { messagesRouted := 0, routeHits := [], errors := 0, outgoingRouted := 0,
    startedAt := 0 }

/-- `formatUptime` from src/webmcp-tools.ts. -/
def formatUptime (ms : Nat) : String :=
  let seconds := ms / 1000
  let minutes := seconds / 60
  let hours := minutes / 60
  let days := hours / 24
  if days > 0 then toString days ++ "d " ++ toString (hours % 24) ++ "h"
  else if hours > 0 then toString hours ++ "h " ++ toString (minutes % 60) ++ "m"
  else if minutes > 0 then toString minutes ++ "m " ++ toString (seconds % 60) ++ "s"
  else toString seconds ++ "s"

/-- The route matcher exactly as claim C3 words it: every present optional
field — the empty string included — requires exact equality with the
corresponding message field, and a present channel constraint fails when the
message carries no channel. Spec-side definition, to be compared against
`matchesRoute`. -/
def matchesClaimStrict (route : Route) (input : IncomingInput) : Bool :=
  (match route.sourceSession with
   | none => true
   | some v => input.session == v) &&
  (match route.channelType with
   | none => true
   | some v => input.channel.map Channel.type == some v) &&
  (match route.channelId with
   | none => true
   | some v => input.channel.map Channel.id == some v)

/-- The route matcher as amended: a present nonempty field requires exact
equality (channel constraints failing when the message carries no channel),
while a present empty-string field behaves as absent. Spec-side definition,
to be compared against `matchesRoute`. -/
def matchesClaimTruthy (route : Route) (input : IncomingInput) : Bool :=
  (match route.sourceSession with
   | none => true
   | some v => v == "" || input.session == v) &&
  (match route.channelType with
   | none => true
   | some v => v == "" || input.channel.map Channel.type == some v) &&
  (match route.channelId with
   | none => true
   | some v => v == "" || input.channel.map Channel.id == some v)

/-- The mutable module state of src/stats.ts, with the `Record` object
behind `stats.routeHits` held in an explicit heap of record objects (a record
is an address — its list index — into the heap). The scalar counters are
JavaScript numbers, copied by value. -/
structure HeapWorld where
  heap : List (List (String × Nat))
  hitsAddr : Nat
  messagesRouted : Nat
  errors : Nat
  outgoingRouted : Nat
  startedAt : Nat
deriving DecidableEq, Repr

/-- The object `getStats` returns: value copies of the scalar counters plus
the address of its `routeHits` record. -/
structure StatsSnapshot where
  messagesRouted : Nat
  hitsAddr : Nat
  errors : Nat
  outgoingRouted : Nat
  startedAt : Nat
deriving DecidableEq, Repr

/-- `getStats` from src/stats.ts in the heap model: the object literal
copies every scalar field, and the spread `{ ...stats.routeHits }` allocates
a fresh record (at the next free address) holding a copy of the internal
ledger's entries. -/
def getStats (w : HeapWorld) : HeapWorld × StatsSnapshot :=
  ({ w with heap := w.heap ++ [w.heap.getD w.hitsAddr []] },
   { messagesRouted := w.messagesRouted
     hitsAddr := w.heap.length
     errors := w.errors
     outgoingRouted := w.outgoingRouted
     startedAt := w.startedAt })

/-- A caller-side mutation of a record object: overwrite the record at
address `a` with arbitrary entries (assigning, deleting or replacing keys of
a `Record<string, number>` only ever rewrites the record it addresses). -/
def heapWrite (a : Nat) (v : List (String × Nat)) (w : HeapWorld) : HeapWorld :=
  { w with heap := w.heap.set a v }

/-- The plain value a snapshot denotes, reading its `routeHits` record out
of the heap. -/
def snapValue (w : HeapWorld) (snap : StatsSnapshot) : RoutingStats :=
  { messagesRouted := snap.messagesRouted
    routeHits := w.heap.getD snap.hitsAddr []
    errors := snap.errors
    outgoingRouted := snap.outgoingRouted
    startedAt := snap.startedAt }

/-- The plain value of the internal `stats` module variable. -/
def internalValue (w : HeapWorld) : RoutingStats :=
  { messagesRouted := w.messagesRouted
    routeHits := w.heap.getD w.hitsAddr []
    errors := w.errors
    outgoingRouted := w.outgoingRouted
    startedAt := w.startedAt }

/-- The internal record address is a live heap object (true from module
initialization on: `stats.routeHits` always refers to an allocated record). -/
def wfWorld (w : HeapWorld) : Prop :=
  w.hitsAddr < w.heap.length

theorem deliveredCount_append (a b : List Event) :
    deliveredCount (a ++ b) = deliveredCount a + deliveredCount b := by
  simp [deliveredCount, List.filter_append]

theorem failedCount_append (a b : List Event) :
    failedCount (a ++ b) = failedCount a + failedCount b := by
  simp [failedCount, List.filter_append]

theorem sentCount_append (a b : List Event) :
    sentCount (a ++ b) = sentCount a + sentCount b := by
  simp [sentCount, List.filter_append]

theorem sendFailedCount_append (a b : List Event) :
    sendFailedCount (a ++ b) = sendFailedCount a + sendFailedCount b := by
  simp [sendFailedCount, List.filter_append]

theorem deliveredKeys_append (source : String) (a b : List Event) :
    deliveredKeys source (a ++ b) = deliveredKeys source a ++ deliveredKeys source b := by
  simp [deliveredKeys, List.filterMap_append]

theorem targetEvents_nil (inject : String → String → Bool)
    (input : IncomingInput) : targetEvents inject input [] = [] := rfl

theorem targetEvents_cons (inject : String → String → Bool)
    (input : IncomingInput) (t : String) (rest : List String) :
    targetEvents inject input (t :: rest)
      = if skipTarget input t then targetEvents inject input rest
        else
          (if inject t input.message then Event.delivered t input.message
           else Event.deliveryFailed t) :: targetEvents inject input rest := by
  by_cases h : skipTarget input t <;>
    simp [targetEvents, List.filter_cons, h]

theorem runTargets_snd (inject : String → String → Bool) (input : IncomingInput) :
    ∀ (ts : List String) (s : RoutingStats),
      (runTargets inject input ts s).2 = targetEvents inject input ts := by
  intro ts
  induction ts with
  | nil => intro s; rfl
  | cons t rest ih =>
    intro s
    rw [targetEvents_cons]
    by_cases h : skipTarget input t
    · simp [runTargets, h, ih s]
    · by_cases hi : inject t input.message
      · simp [runTargets, h, hi, ih]
      · simp [runTargets, h, hi, ih]

theorem runTargets_messagesRouted (inject : String → String → Bool)
    (input : IncomingInput) :
    ∀ (ts : List String) (s : RoutingStats),
      (runTargets inject input ts s).1.messagesRouted
        = s.messagesRouted + deliveredCount (targetEvents inject input ts) := by
  intro ts
  induction ts with
  | nil => intro s; simp [runTargets, targetEvents, deliveredCount]
  | cons t rest ih =>
    intro s
    rw [targetEvents_cons]
    by_cases h : skipTarget input t
    · simp [runTargets, h, ih s]
    · by_cases hi : inject t input.message
      · simp [runTargets, h, hi, ih, deliveredCount, recordRouteHit,
          incrementRouted, Event.isDelivered]
        omega
      · simp [runTargets, h, hi, ih, deliveredCount, incrementErrors,
          Event.isDelivered]

theorem runTargets_errors (inject : String → String → Bool)
    (input : IncomingInput) :
    ∀ (ts : List String) (s : RoutingStats),
      (runTargets inject input ts s).1.errors
        = s.errors + failedCount (targetEvents inject input ts) := by
  intro ts
  induction ts with
  | nil => intro s; simp [runTargets, targetEvents, failedCount]
  | cons t rest ih =>
    intro s
    rw [targetEvents_cons]
    by_cases h : skipTarget input t
    · simp [runTargets, h, ih s]
    · by_cases hi : inject t input.message
      · simp [runTargets, h, hi, ih, failedCount, recordRouteHit,
          incrementRouted, Event.isDeliveryFailed]
      · simp [runTargets, h, hi, ih, failedCount, incrementErrors,
          Event.isDeliveryFailed]
        omega

theorem hitCount_bumpKey (key k : String) :
    ∀ (l : List (String × Nat)),
      hitCount key (bumpKey k l)
        = hitCount key l + (if k = key then 1 else 0) := by
  intro l
  induction l with
  | nil => by_cases h : k = key <;> simp [bumpKey, hitCount, h]
  | cons p rest ih =>
    obtain ⟨k1, v⟩ := p
    by_cases h1 : k1 = k
    · subst h1
      by_cases h2 : k1 = key <;> simp [bumpKey, hitCount, h2]
    · by_cases h2 : k1 = key
      · subst h2
        have h3 : ¬k = k1 := fun h => h1 h.symm
        simp [bumpKey, hitCount, h1, h3]
      · simp [bumpKey, hitCount, h1, h2, ih]

theorem runTargets_hitCount (inject : String → String → Bool)
    (input : IncomingInput) :
    ∀ (ts : List String) (s : RoutingStats) (key : String),
      hitCount key (runTargets inject input ts s).1.routeHits
        = hitCount key s.routeHits
          + (deliveredKeys input.session (targetEvents inject input ts)).count key := by
  intro ts
  induction ts with
  | nil => intro s key; simp [runTargets, targetEvents, deliveredKeys]
  | cons t rest ih =>
    intro s key
    rw [targetEvents_cons]
    by_cases h : skipTarget input t
    · simp [runTargets, h, ih s]
    · by_cases hi : inject t input.message
      · simp [runTargets, h, hi, ih, deliveredKeys, recordRouteHit,
          incrementRouted, hitCount_bumpKey, List.count_cons]
        by_cases hk : routeKey input.session t = key
        · simp [hk]
          omega
        · simp [hk]
      · simp [runTargets, h, hi, ih, deliveredKeys, incrementErrors]

theorem runTargets_skip_filter (inject : String → String → Bool)
    (input : IncomingInput) :
    ∀ (ts : List String) (s : RoutingStats),
      runTargets inject input ts s
        = runTargets inject input (ts.filter (fun t => !skipTarget input t)) s := by
  intro ts
  induction ts with
  | nil => intro s; rfl
  | cons t rest ih =>
    intro s
    rw [List.filter_cons]
    by_cases h : skipTarget input t
    · simp [runTargets, h, ih s]
    · by_cases hi : inject t input.message
      · simp [runTargets, h, hi, ih]
      · simp [runTargets, h, hi, ih]

theorem fanOutToSessions_snd (inject : String → String → Bool) (r : Route)
    (input : IncomingInput) (s : RoutingStats) :
    (fanOutToSessions inject r input s).2 = routeEvents inject input r := by
  simp [fanOutToSessions, routeEvents, runTargets_snd]

theorem runRoutes_snd (inject : String → String → Bool) (input : IncomingInput) :
    ∀ (rs : List Route) (s : RoutingStats),
      (runRoutes inject input rs s).2
        = (rs.filter (fun r => matchesRoute r input)).flatMap
            (routeEvents inject input) := by
  intro rs
  induction rs with
  | nil => intro s; rfl
  | cons r rest ih =>
    intro s
    rw [List.filter_cons]
    by_cases h : matchesRoute r input
    · simp [runRoutes, h, ih, fanOutToSessions_snd]
    · simp [runRoutes, h, ih]

theorem runRoutes_messagesRouted (inject : String → String → Bool)
    (input : IncomingInput) :
    ∀ (rs : List Route) (s : RoutingStats),
      (runRoutes inject input rs s).1.messagesRouted
        = s.messagesRouted + deliveredCount (runRoutes inject input rs s).2 := by
  intro rs
  induction rs with
  | nil => intro s; simp [runRoutes, deliveredCount]
  | cons r rest ih =>
    intro s
    by_cases h : matchesRoute r input
    · simp only [runRoutes, if_pos h]
      rw [ih, deliveredCount_append]
      simp [fanOutToSessions, runTargets_messagesRouted, runTargets_snd]
      omega
    · simp only [runRoutes, if_neg h]
      exact ih s

theorem runRoutes_errors (inject : String → String → Bool)
    (input : IncomingInput) :
    ∀ (rs : List Route) (s : RoutingStats),
      (runRoutes inject input rs s).1.errors
        = s.errors + failedCount (runRoutes inject input rs s).2 := by
  intro rs
  induction rs with
  | nil => intro s; simp [runRoutes, failedCount]
  | cons r rest ih =>
    intro s
    by_cases h : matchesRoute r input
    · simp only [runRoutes, if_pos h]
      rw [ih, failedCount_append]
      simp [fanOutToSessions, runTargets_errors, runTargets_snd]
      omega
    · simp only [runRoutes, if_neg h]
      exact ih s

theorem runRoutes_hitCount (inject : String → String → Bool)
    (input : IncomingInput) :
    ∀ (rs : List Route) (s : RoutingStats) (key : String),
      hitCount key (runRoutes inject input rs s).1.routeHits
        = hitCount key s.routeHits
          + (deliveredKeys input.session (runRoutes inject input rs s).2).count key := by
  intro rs
  induction rs with
  | nil => intro s key; simp [runRoutes, deliveredKeys]
  | cons r rest ih =>
    intro s key
    by_cases h : matchesRoute r input
    · simp only [runRoutes, if_pos h]
      rw [ih, deliveredKeys_append, List.count_append]
      simp [fanOutToSessions, runTargets_hitCount, runTargets_snd]
      omega
    · simp only [runRoutes, if_neg h]
      exact ih s key

theorem adapterEvents_cons (route : OutgoingRoute) (output : OutgoingOutput)
    (a : ChannelAdapter) (rest : List ChannelAdapter) :
    adapterEvents route output (a :: rest)
      = if passesChannel route a then
          (if a.sendOk then Event.sent a.channel output.response
           else Event.sendFailed a.channel) :: adapterEvents route output rest
        else adapterEvents route output rest := by
  by_cases h : passesChannel route a <;>
    simp [adapterEvents, List.filter_cons, h]

theorem runAdapters_snd (route : OutgoingRoute) (output : OutgoingOutput) :
    ∀ (as : List ChannelAdapter) (s : RoutingStats),
      (runAdapters route output as s).2 = adapterEvents route output as := by
  intro as
  induction as with
  | nil => intro s; rfl
  | cons a rest ih =>
    intro s
    rw [adapterEvents_cons]
    by_cases h1 : (strTruthy route.channelType
        && (some a.channel.type != route.channelType)) = true
    · simp [runAdapters, h1, ih s, passesChannel, h1]
    · by_cases h2 : (strTruthy route.channelId
          && (some a.channel.id != route.channelId)) = true
      · simp [runAdapters, h1, h2, ih s, passesChannel]
      · by_cases hs : a.sendOk
        · simp [runAdapters, h1, h2, hs, ih, passesChannel]
        · simp [runAdapters, h1, h2, hs, ih, passesChannel]

theorem runAdapters_outgoingRouted (route : OutgoingRoute)
    (output : OutgoingOutput) :
    ∀ (as : List ChannelAdapter) (s : RoutingStats),
      (runAdapters route output as s).1.outgoingRouted
        = s.outgoingRouted + sentCount (adapterEvents route output as) := by
  intro as
  induction as with
  | nil => intro s; simp [runAdapters, adapterEvents, sentCount]
  | cons a rest ih =>
    intro s
    rw [adapterEvents_cons]
    by_cases h1 : (strTruthy route.channelType
        && (some a.channel.type != route.channelType)) = true
    · simp [runAdapters, h1, ih s, passesChannel]
    · by_cases h2 : (strTruthy route.channelId
          && (some a.channel.id != route.channelId)) = true
      · simp [runAdapters, h1, h2, ih s, passesChannel]
      · by_cases hs : a.sendOk
        · simp [runAdapters, h1, h2, hs, ih, passesChannel, sentCount,
            incrementOutgoingRouted, Event.isSent]
          omega
        · simp [runAdapters, h1, h2, hs, ih, passesChannel, sentCount,
            incrementErrors, Event.isSent]

theorem runAdapters_errors (route : OutgoingRoute) (output : OutgoingOutput) :
    ∀ (as : List ChannelAdapter) (s : RoutingStats),
      (runAdapters route output as s).1.errors
        = s.errors + sendFailedCount (adapterEvents route output as) := by
  intro as
  induction as with
  | nil => intro s; simp [runAdapters, adapterEvents, sendFailedCount]
  | cons a rest ih =>
    intro s
    rw [adapterEvents_cons]
    by_cases h1 : (strTruthy route.channelType
        && (some a.channel.type != route.channelType)) = true
    · simp [runAdapters, h1, ih s, passesChannel]
    · by_cases h2 : (strTruthy route.channelId
          && (some a.channel.id != route.channelId)) = true
      · simp [runAdapters, h1, h2, ih s, passesChannel]
      · by_cases hs : a.sendOk
        · simp [runAdapters, h1, h2, hs, ih, passesChannel, sendFailedCount,
            incrementOutgoingRouted, Event.isSendFailed]
        · simp [runAdapters, h1, h2, hs, ih, passesChannel, sendFailedCount,
            incrementErrors, Event.isSendFailed]
          omega

theorem runOutRoutes_snd (getChannels : String → List ChannelAdapter)
    (output : OutgoingOutput) :
    ∀ (rs : List OutgoingRoute) (s : RoutingStats),
      (runOutRoutes getChannels output rs s).2
        = (rs.filter (fun r => !skipOutRoute output r)).flatMap
            (fun r => adapterEvents r output (getChannels output.session)) := by
  intro rs
  induction rs with
  | nil => intro s; rfl
  | cons r rest ih =>
    intro s
    rw [List.filter_cons]
    by_cases h : skipOutRoute output r
    · simp [runOutRoutes, h, ih]
    · simp [runOutRoutes, h, ih, fanOutToChannels, runAdapters_snd]

theorem runOutRoutes_outgoingRouted (getChannels : String → List ChannelAdapter)
    (output : OutgoingOutput) :
    ∀ (rs : List OutgoingRoute) (s : RoutingStats),
      (runOutRoutes getChannels output rs s).1.outgoingRouted
        = s.outgoingRouted + sentCount (runOutRoutes getChannels output rs s).2 := by
  intro rs
  induction rs with
  | nil => intro s; simp [runOutRoutes, sentCount]
  | cons r rest ih =>
    intro s
    by_cases h : skipOutRoute output r
    · simp only [runOutRoutes, if_pos h]
      exact ih s
    · simp only [runOutRoutes, if_neg h]
      rw [ih, sentCount_append]
      simp [fanOutToChannels, runAdapters_outgoingRouted, runAdapters_snd]
      omega

theorem runOutRoutes_errors (getChannels : String → List ChannelAdapter)
    (output : OutgoingOutput) :
    ∀ (rs : List OutgoingRoute) (s : RoutingStats),
      (runOutRoutes getChannels output rs s).1.errors
        = s.errors + sendFailedCount (runOutRoutes getChannels output rs s).2 := by
  intro rs
  induction rs with
  | nil => intro s; simp [runOutRoutes, sendFailedCount]
  | cons r rest ih =>
    intro s
    by_cases h : skipOutRoute output r
    · simp only [runOutRoutes, if_pos h]
      exact ih s
    · simp only [runOutRoutes, if_neg h]
      rw [ih, sendFailedCount_append]
      simp [fanOutToChannels, runAdapters_errors, runAdapters_snd]
      omega

theorem heapGetD_append_lt (l : List (List (String × Nat)))
    (x : List (String × Nat)) (b : Nat) (h : b < l.length) :
    (l ++ [x]).getD b [] = l.getD b [] := by
  simp [List.getD, List.getElem?_append, h]

theorem heapGetD_append_len (l : List (List (String × Nat)))
    (x : List (String × Nat)) : (l ++ [x]).getD l.length [] = x := by
  simp [List.getD]

theorem heapGetD_set_ne (l : List (List (String × Nat))) (a b : Nat)
    (v : List (String × Nat)) (h : a ≠ b) :
    (l.set a v).getD b [] = l.getD b [] := by
  simp [List.getD, List.getElem?_set_ne h]

theorem snapValue_getStats (w : HeapWorld) :
    snapValue (getStats w).1 (getStats w).2 = internalValue w := by
  simp [snapValue, getStats, internalValue, heapGetD_append_len]

theorem internalValue_getStats_fst (w : HeapWorld) (h : wfWorld w) :
    internalValue (getStats w).1 = internalValue w := by
  have h2 : w.hitsAddr < w.heap.length := h
  simp [internalValue, getStats, List.getElem?_append, h2]

theorem internalValue_heapWrite (w : HeapWorld) (a : Nat)
    (v : List (String × Nat)) (h : w.hitsAddr ≠ a) :
    internalValue (heapWrite a v w) = internalValue w := by
  simp [internalValue, heapWrite,
    List.getElem?_set_ne (fun hh => h hh.symm)]

theorem internalValue_foldl_heapWrite (a : Nat)
    (ws : List (List (String × Nat))) :
    ∀ (w : HeapWorld), w.hitsAddr ≠ a →
      internalValue (ws.foldl (fun acc v => heapWrite a v acc) w)
          = internalValue w ∧
      (ws.foldl (fun acc v => heapWrite a v acc) w).hitsAddr = w.hitsAddr := by
  induction ws with
  | nil => intro w _; exact ⟨rfl, rfl⟩
  | cons v rest ih =>
    intro w h
    simp only [List.foldl_cons]
    have h2 : (heapWrite a v w).hitsAddr ≠ a := h
    obtain ⟨ha, hb⟩ := ih (heapWrite a v w) h2
    exact ⟨ha.trans (internalValue_heapWrite w a v h), hb⟩

theorem strTruthy_comp (field actual : Option String) :
    (!(strTruthy field && (field != actual)))
      = (match field with
         | none => true
         | some v => v == "" || actual == some v) := by
  cases field with
  | none => simp [strTruthy]
  | some v =>
    by_cases hv : v = ""
    · simp [strTruthy, hv]
    · cases actual with
      | none =>
        have l1 : (some v != (none : Option String)) = true := by simp
        have l2 : (!(v == "")) = true := by simp [hv]
        simp [strTruthy, hv]
        rw [l1, l2]
      | some a =>
        by_cases ha : a = v
        · subst ha
          simp [strTruthy, hv]
        · have ha2 : ¬v = a := fun h => ha h.symm
          have l1 : (some v != some a) = true := by simp [ha2]
          have l2 : (!(v == "")) = true := by simp [hv]
          have l3 : (!(a == v)) = true := by simp [ha]
          simp [strTruthy, hv, ha, ha2]
          rw [l1, l2, l3]
          rfl

theorem matchesRoute_bands (r : Route) (m : IncomingInput) :
    matchesRoute r m
      = (!(strTruthy r.sourceSession && (r.sourceSession != some m.session)) &&
         (!(strTruthy r.channelType && (r.channelType != m.channel.map Channel.type)) &&
          !(strTruthy r.channelId && (r.channelId != m.channel.map Channel.id)))) := by
  by_cases h1 : (strTruthy r.sourceSession && (r.sourceSession != some m.session)) = true
  · simp [matchesRoute, h1]
  · by_cases h2 : (strTruthy r.channelType
        && (r.channelType != m.channel.map Channel.type)) = true
    · simp [matchesRoute, h1, h2]
    · by_cases h3 : (strTruthy r.channelId
          && (r.channelId != m.channel.map Channel.id)) = true
      · simp [matchesRoute, h1, h2, h3]
      · simp [matchesRoute, h1, h2, h3]

theorem matchesRoute_eq_truthy (r : Route) (m : IncomingInput) :
    matchesRoute r m = matchesClaimTruthy r m := by
  rw [matchesRoute_bands]
  obtain ⟨ss, ts, ct, ci⟩ := r
  simp only [matchesClaimTruthy]
  rw [strTruthy_comp ss (some m.session),
      strTruthy_comp ct (m.channel.map Channel.type),
      strTruthy_comp ci (m.channel.map Channel.id)]
  cases ss with
  | none => simp [Bool.and_assoc]
  | some v =>
    simp [beq_iff_eq, eq_comm, Bool.and_assoc]

theorem targetEvents_no_log (inject : String → String → Bool)
    (input : IncomingInput) (ts : List String) :
    (targetEvents inject input ts).all (fun e => !e.isLogged) = true := by
  rw [List.all_eq_true]
  intro e he
  simp only [targetEvents, List.mem_map] at he
  obtain ⟨t, _, rfl⟩ := he
  by_cases hi : inject t input.message <;> simp [hi, Event.isLogged]

theorem runRoutes_no_log (inject : String → String → Bool)
    (input : IncomingInput) (rs : List Route) (s : RoutingStats) :
    ((runRoutes inject input rs s).2.all (fun e => !e.isLogged)) = true := by
  rw [runRoutes_snd, List.all_eq_true]
  intro e he
  rw [List.mem_flatMap] at he
  obtain ⟨r, _, he⟩ := he
  have h2 := targetEvents_no_log inject input (r.targetSessions.getD [])
  rw [List.all_eq_true] at h2
  exact h2 e he

/-- Claim C1: for every incoming message and configuration, `onIncoming`
evaluates the incoming rules in declared order and every matching rule fires
(the trace is the concatenation, in declared order, of the fan-out traces of
exactly the matching rules); each successful delivery increments
`messagesRouted` by exactly one and bumps the `routeHits` entry for
`"<source>-><target>"` by one, creating it at 1 when absent; and on the
config `{routes:[{sourceSession:"support",
targetSessions:["billing","engineering"]}]}` with message
`{session:"support", message:"hi"}` exactly two deliveries occur, to
`billing` and `engineering` with text `"hi"`, leaving `messagesRouted == 2`
and `routeHits == {"support->billing":1, "support->engineering":1}`. -/
theorem claim_C1_incoming_exhaustive_fanout :
    (∀ (inject : String → String → Bool) (config : RouterConfig)
       (input : IncomingInput) (s : RoutingStats),
       (onIncoming inject config input s).2.1
         = ((config.routes.getD []).filter (fun r => matchesRoute r input)).flatMap
             (routeEvents inject input)) ∧
    (∀ (inject : String → String → Bool) (config : RouterConfig)
       (input : IncomingInput) (s : RoutingStats),
       (onIncoming inject config input s).1.messagesRouted
         = s.messagesRouted
           + deliveredCount (onIncoming inject config input s).2.1) ∧
    (∀ (inject : String → String → Bool) (config : RouterConfig)
       (input : IncomingInput) (s : RoutingStats) (key : String),
       hitCount key (onIncoming inject config input s).1.routeHits
         = hitCount key s.routeHits
           + (deliveredKeys input.session
               (onIncoming inject config input s).2.1).count key) ∧
    onIncoming (fun _ _ => true)
        ⟨some [⟨some "support", some ["billing", "engineering"], none, none⟩], none⟩
        ⟨"support", none, "hi"⟩ statsZero
      = (⟨2, [("support->billing", 1), ("support->engineering", 1)], 0, 0, 0⟩,
         [Event.delivered "billing" "hi", Event.delivered "engineering" "hi"],
         "hi") := by
  refine ⟨?_, ?_, ?_, by decide⟩
  · intro inject config input s
    simp [onIncoming, runRoutes_snd]
  · intro inject config input s
    simp [onIncoming, runRoutes_messagesRouted]
  · intro inject config input s key
    simp [onIncoming, runRoutes_hitCount]

/-- Claim C2 as stated is false on src/index.ts: in a dispatch where the
injection capability rejects for target `"b"` and resolves for `"c"`, the
failure increments `errors` to 1 and the remaining target is still
delivered, but the trace contains no call to the logging collaborator — the
catch block of `fanOutToSessions` swallows the failure silently, so the
failure is NOT surfaced to a logging collaborator. -/
theorem claim_C2_counterexample :
    onIncoming (fun t _ => t == "c")
        ⟨some [⟨none, some ["b", "c"], none, none⟩], none⟩
        ⟨"a", none, "m"⟩ statsZero
      = (⟨1, [("a->c", 1)], 1, 0, 0⟩,
         [Event.deliveryFailed "b", Event.delivered "c" "m"], "m") ∧
    ((onIncoming (fun t _ => t == "c")
        ⟨some [⟨none, some ["b", "c"], none, none⟩], none⟩
        ⟨"a", none, "m"⟩ statsZero).2.1.all (fun e => !e.isLogged)) = true := by
  constructor
  · decide
  · decide

/-- Claim C2 as amended: a failure of the session-injection capability on
one target increments `errors` by exactly one for that failure, leaves
`messagesRouted` and `routeHits` unchanged for that failed target (only
successful deliveries are counted), and does not prevent delivery attempts
on the remaining targets of the same rule or on subsequent rules (the trace
covers every non-skipped target of every matching rule, in order,
whatever the outcomes); the failure is NOT surfaced to a logging
collaborator — the catch block swallows it silently. -/
theorem claim_C2_amended_failure_isolated_unlogged :
    (∀ (inject : String → String → Bool) (config : RouterConfig)
       (input : IncomingInput) (s : RoutingStats),
       (onIncoming inject config input s).1.errors
         = s.errors + failedCount (onIncoming inject config input s).2.1) ∧
    (∀ (inject : String → String → Bool) (input : IncomingInput)
       (ts : List String) (s : RoutingStats),
       (runTargets inject input ts s).2 = targetEvents inject input ts) ∧
    (∀ (inject : String → String → Bool) (config : RouterConfig)
       (input : IncomingInput) (s : RoutingStats),
       (onIncoming inject config input s).1.messagesRouted
         = s.messagesRouted
           + deliveredCount (onIncoming inject config input s).2.1) ∧
    (∀ (inject : String → String → Bool) (config : RouterConfig)
       (input : IncomingInput) (s : RoutingStats) (key : String),
       hitCount key (onIncoming inject config input s).1.routeHits
         = hitCount key s.routeHits
           + (deliveredKeys input.session
               (onIncoming inject config input s).2.1).count key) ∧
    (∀ (inject : String → String → Bool) (config : RouterConfig)
       (input : IncomingInput) (s : RoutingStats),
       ((onIncoming inject config input s).2.1.all (fun e => !e.isLogged))
         = true) := by
  refine ⟨?_, ?_, ?_, ?_, ?_⟩
  · intro inject config input s
    simp [onIncoming, runRoutes_errors]
  · intro inject input ts s
    exact runTargets_snd inject input ts s
  · intro inject config input s
    simp [onIncoming, runRoutes_messagesRouted]
  · intro inject config input s key
    simp [onIncoming, runRoutes_hitCount]
  · intro inject config input s
    simp only [onIncoming]
    exact runRoutes_no_log inject input (config.routes.getD []) s

/-- Claim C4: a rule with every match-relevant optional field
(`sourceSession`, `channelType`, `channelId`) absent is a pure wildcard:
`matchesRoute` returns true for any message, whether or not it carries
channel information. -/
theorem claim_C4_wildcard_matches_all :
    ∀ (ts : Option (List String)) (m : IncomingInput),
      matchesRoute ⟨none, ts, none, none⟩ m = true := by
  intro ts m
  simp [matchesRoute, strTruthy]

/-- Claim C5: during incoming fan-out every blank target and every target
equal to the source session is skipped — running the targets equals running
the list with those entries filtered out, so no delivery attempt, counter
change or route-hit change arises from them; `["", "b", ""]` yields exactly
one delivery, to `"b"`, and a rule `{sourceSession:"a",
targetSessions:["a"]}` on a message from `"a"` causes no delivery attempt
and leaves the stats untouched. -/
theorem claim_C5_blank_and_self_targets_skipped :
    (∀ (inject : String → String → Bool) (input : IncomingInput)
       (ts : List String) (s : RoutingStats),
       runTargets inject input ts s
         = runTargets inject input (ts.filter (fun t => !skipTarget input t)) s) ∧
    fanOutToSessions (fun _ _ => true) ⟨none, some ["", "b", ""], none, none⟩
        ⟨"a", none, "m"⟩ statsZero
      = (⟨1, [("a->b", 1)], 0, 0, 0⟩, [Event.delivered "b" "m"]) ∧
    fanOutToSessions (fun _ _ => true) ⟨some "a", some ["a"], none, none⟩
        ⟨"a", none, "m"⟩ statsZero
      = (statsZero, []) := by
  refine ⟨?_, by decide, by decide⟩
  intro inject input ts s
  exact runTargets_skip_filter inject input ts s

/-- Claim C6: `onIncoming` always returns exactly the input's message text
and `onOutgoing` always returns exactly the output's response text,
regardless of configuration, matching rules or delivery outcomes. -/
theorem claim_C6_texts_returned_unchanged :
    (∀ (inject : String → String → Bool) (config : RouterConfig)
       (input : IncomingInput) (s : RoutingStats),
       (onIncoming inject config input s).2.2 = input.message) ∧
    (∀ (getChannels : String → List ChannelAdapter) (config : RouterConfig)
       (output : OutgoingOutput) (s : RoutingStats),
       (onOutgoing getChannels config output s).2.2 = output.response) := by
  constructor
  · intro inject config input s
    simp [onIncoming]
  · intro getChannels config output s
    simp [onOutgoing]

/-- Claim C3 as stated is false on src/index.ts: the rule
`{sourceSession: ""}` has `sourceSession` present with value `""`, the
message's session is `"x" ≠ ""`, yet `matchesRoute` returns true — a
present empty-string field is NOT held to exact equality (JS truthiness
treats `""` as absent), contradicting "exact equality for every present
value". `matchesClaimStrict` is the matcher exactly as the claim words it
and disagrees with the code here. -/
theorem claim_C3_counterexample :
    matchesRoute ⟨some "", none, none, none⟩ ⟨"x", none, "m"⟩ = true ∧
    matchesClaimStrict ⟨some "", none, none, none⟩ ⟨"x", none, "m"⟩ = false ∧
    ("x" : String) ≠ "" := by
  refine ⟨by decide, by decide, by decide⟩

/-- Claim C3 as amended: `matchesRoute` enforces exact equality for every
present NONEMPTY optional rule field — a present empty-string field behaves
as absent (wildcard) — and is exactly `matchesClaimTruthy`; moreover, when
the message carries no channel, a rule with a nonempty `channelType` or
`channelId` never matches, and a nonempty `sourceSession` on a matching
rule pins the message's session exactly. -/
theorem claim_C3_amended_exact_match_on_nonempty_fields :
    (∀ (r : Route) (m : IncomingInput), matchesRoute r m = matchesClaimTruthy r m) ∧
    (∀ (r : Route) (m : IncomingInput) (v : String),
       r.channelType = some v → v ≠ "" → m.channel = none →
       matchesRoute r m = false) ∧
    (∀ (r : Route) (m : IncomingInput) (v : String),
       r.channelId = some v → v ≠ "" → m.channel = none →
       matchesRoute r m = false) ∧
    (∀ (r : Route) (m : IncomingInput) (v : String),
       r.sourceSession = some v → v ≠ "" → matchesRoute r m = true →
       m.session = v) ∧
    (∀ (r : Route) (m : IncomingInput) (v : String) (c : Channel),
       r.channelType = some v → v ≠ "" → m.channel = some c →
       matchesRoute r m = true → c.type = v) ∧
    (∀ (r : Route) (m : IncomingInput) (v : String) (c : Channel),
       r.channelId = some v → v ≠ "" → m.channel = some c →
       matchesRoute r m = true → c.id = v) := by
  refine ⟨matchesRoute_eq_truthy, ?_, ?_, ?_, ?_, ?_⟩
  · intro r m v hct hv hch
    rw [matchesRoute_eq_truthy]
    simp [matchesClaimTruthy, hct, hv, hch]
  · intro r m v hci hv hch
    rw [matchesRoute_eq_truthy]
    simp [matchesClaimTruthy, hci, hv, hch]
  · intro r m v hss hv hmatch
    rw [matchesRoute_eq_truthy] at hmatch
    simp [matchesClaimTruthy, hss, hv] at hmatch
    exact hmatch.1.1
  · intro r m v c hct hv hch hmatch
    rw [matchesRoute_eq_truthy] at hmatch
    simp [matchesClaimTruthy, hct, hv, hch] at hmatch
    exact hmatch.1.2
  · intro r m v c hci hv hch hmatch
    rw [matchesRoute_eq_truthy] at hmatch
    simp [matchesClaimTruthy, hci, hv, hch] at hmatch
    exact hmatch.2

/-- Witness for the amended claim C3 at concrete inputs: a nonempty
channelType constraint on a channel-less message is a non-match, and a
matching nonempty sourceSession pins the session. -/
theorem claim_C3_witness :
    (("t" : String) ≠ "" ∧
       matchesRoute ⟨none, none, some "t", none⟩ ⟨"x", none, "m"⟩ = false) ∧
    (("a" : String) ≠ "" ∧
       (⟨"a", none, "m"⟩ : IncomingInput).session = "a") := by
  constructor
  · exact ⟨by decide,
      claim_C3_amended_exact_match_on_nonempty_fields.2.1
        ⟨none, none, some "t", none⟩ ⟨"x", none, "m"⟩ "t" rfl (by decide) rfl⟩
  · exact ⟨by decide,
      claim_C3_amended_exact_match_on_nonempty_fields.2.2.2.1
        ⟨some "a", none, none, none⟩ ⟨"a", none, "m"⟩ "a" rfl (by decide)
        (by decide)⟩

/-- Claim C7 as stated is false on src/index.ts: the outgoing rule
`{sourceSession: ""}` specifies a `sourceSession` (`""`) different from the
output's session `"x"`, yet `onOutgoing` does not skip it — the JS
truthiness test treats `""` as absent — and the response is sent to the
bound adapter, incrementing `outgoingRouted`. -/
theorem claim_C7_counterexample :
    onOutgoing (fun _ => [⟨⟨"t", "i"⟩, true⟩]) ⟨none, some [⟨some "", none, none⟩]⟩
        ⟨"x", "r"⟩ statsZero
      = (⟨0, [], 0, 1, 0⟩, [Event.sent ⟨"t", "i"⟩ "r"], "r") ∧
    ("" : String) ≠ "x" ∧
    sentCount (onOutgoing (fun _ => [⟨⟨"t", "i"⟩, true⟩])
        ⟨none, some [⟨some "", none, none⟩]⟩ ⟨"x", "r"⟩ statsZero).2.1 = 1 := by
  refine ⟨by decide, by decide, by decide⟩

/-- Claim C7 as amended: for every outgoing dispatch, a rule whose
NONEMPTY `sourceSession` differs from `output.session` is skipped (absent
or empty `sourceSession` is a wildcard); each surviving rule sends the
response exactly to those adapters bound to `output.session` that pass the
rule's nonempty `channelType`/`channelId` constraints (absent or empty
constraints match all adapters), every passing adapter being attempted in
order regardless of earlier outcomes; each successful send increments
`outgoingRouted` by one and each failed send increments `errors` by one
without aborting the remaining sends or rules. -/
theorem claim_C7_amended_outgoing_semantics :
    (∀ (getChannels : String → List ChannelAdapter) (config : RouterConfig)
       (output : OutgoingOutput) (s : RoutingStats),
       (onOutgoing getChannels config output s).2.1
         = ((config.outgoingRoutes.getD []).filter
              (fun r => !skipOutRoute output r)).flatMap
             (fun r => adapterEvents r output (getChannels output.session))) ∧
    (∀ (output : OutgoingOutput) (r : OutgoingRoute) (v : String),
       r.sourceSession = some v → v ≠ "" → v ≠ output.session →
       skipOutRoute output r = true) ∧
    (∀ (output : OutgoingOutput) (r : OutgoingRoute),
       r.sourceSession = none ∨ r.sourceSession = some ""
         ∨ r.sourceSession = some output.session →
       skipOutRoute output r = false) ∧
    (∀ (getChannels : String → List ChannelAdapter) (config : RouterConfig)
       (output : OutgoingOutput) (s : RoutingStats),
       (onOutgoing getChannels config output s).1.outgoingRouted
         = s.outgoingRouted
           + sentCount (onOutgoing getChannels config output s).2.1) ∧
    (∀ (getChannels : String → List ChannelAdapter) (config : RouterConfig)
       (output : OutgoingOutput) (s : RoutingStats),
       (onOutgoing getChannels config output s).1.errors
         = s.errors
           + sendFailedCount (onOutgoing getChannels config output s).2.1) := by
  refine ⟨?_, ?_, ?_, ?_, ?_⟩
  · intro getChannels config output s
    simp [onOutgoing, runOutRoutes_snd]
  · intro output r v hss hv hne
    simp [skipOutRoute, hss, strTruthy, hv, hne]
  · intro output r hss
    rcases hss with h | h | h <;> simp [skipOutRoute, h, strTruthy]
  · intro getChannels config output s
    simp [onOutgoing, runOutRoutes_outgoingRouted]
  · intro getChannels config output s
    simp [onOutgoing, runOutRoutes_errors]

/-- Witness for the amended claim C7 at concrete inputs: a rule with
nonempty sourceSession `"a"` is skipped for a message from `"x"`, and a
rule with sourceSession `""` survives. -/
theorem claim_C7_witness :
    (("a" : String) ≠ "" ∧ ("a" : String) ≠ "x" ∧
       skipOutRoute ⟨"x", "r"⟩ ⟨some "a", none, none⟩ = true) ∧
    skipOutRoute ⟨"x", "r"⟩ ⟨some "", none, none⟩ = false := by
  constructor
  · exact ⟨by decide, by decide,
      claim_C7_amended_outgoing_semantics.2.1 ⟨"x", "r"⟩ ⟨some "a", none, none⟩
        "a" rfl (by decide) (by decide)⟩
  · exact claim_C7_amended_outgoing_semantics.2.2.1 ⟨"x", "r"⟩
      ⟨some "", none, none⟩ (Or.inr (Or.inl rfl))

/-- Claim C8: `getStats()` returns an independent snapshot — in the heap
model of src/stats.ts, where the object spread allocates the returned
`routeHits` record at a fresh address, any sequence of caller-side writes
through the returned snapshot's record leaves the internal counters and
route-hit ledger unchanged, a subsequent `getStats()` returns the same
value as it would have without those writes, and the snapshot read back
through the heap equals the internal state at the time of the call. -/
theorem claim_C8_getStats_snapshot_isolated (w : HeapWorld) (hwf : wfWorld w)
    (writes : List (List (String × Nat))) :
    internalValue
        (writes.foldl (fun acc v => heapWrite (getStats w).2.hitsAddr v acc)
          (getStats w).1)
      = internalValue w ∧
    snapValue
        (getStats (writes.foldl
          (fun acc v => heapWrite (getStats w).2.hitsAddr v acc)
          (getStats w).1)).1
        (getStats (writes.foldl
          (fun acc v => heapWrite (getStats w).2.hitsAddr v acc)
          (getStats w).1)).2
      = snapValue (getStats (getStats w).1).1 (getStats (getStats w).1).2 ∧
    snapValue (getStats w).1 (getStats w).2 = internalValue w := by
  have hne : (getStats w).1.hitsAddr ≠ (getStats w).2.hitsAddr := by
    have h1 : (getStats w).1.hitsAddr = w.hitsAddr := rfl
    have h2 : (getStats w).2.hitsAddr = w.heap.length := rfl
    rw [h1, h2]
    exact Nat.ne_of_lt hwf
  obtain ⟨ha, _⟩ :=
    internalValue_foldl_heapWrite (getStats w).2.hitsAddr writes (getStats w).1 hne
  have h1 : internalValue (getStats w).1 = internalValue w :=
    internalValue_getStats_fst w hwf
  refine ⟨ha.trans h1, ?_, snapValue_getStats w⟩
  rw [snapValue_getStats, snapValue_getStats, ha, h1]

/-- Witness for claim C8 at a concrete world: one internal record, a
well-formed internal address, and two caller-side writes through the
snapshot leave the internal value untouched. -/
theorem claim_C8_witness :
    wfWorld ⟨[[("a->b", 1)]], 0, 3, 1, 2, 7⟩ ∧
    internalValue
        ([[("x", 5)], []].foldl
          (fun acc v =>
            heapWrite (getStats ⟨[[("a->b", 1)]], 0, 3, 1, 2, 7⟩).2.hitsAddr v acc)
          (getStats ⟨[[("a->b", 1)]], 0, 3, 1, 2, 7⟩).1)
      = internalValue ⟨[[("a->b", 1)]], 0, 3, 1, 2, 7⟩ := by
  constructor
  · show (0 : Nat) < 1
    decide
  · exact (claim_C8_getStats_snapshot_isolated ⟨[[("a->b", 1)]], 0, 3, 1, 2, 7⟩
      (by show (0 : Nat) < 1; decide) [[("x", 5)], []]).1

/-- Claim C9: the human uptime string uses the single largest applicable
unit pair of the elapsed milliseconds: days and hours (hours modulo 24)
when whole days are positive, else hours and minutes (minutes modulo 60)
when whole hours are positive, else minutes and seconds (seconds modulo
60) when whole minutes are positive, else seconds alone; 30000 ms formats
as "30s", 150000 ms as "2m 30s", 7200000 ms as "2h 0m" and 90000000 ms
(25 h) as "1d 1h". -/
theorem claim_C9_formatUptime_unit_pairs :
    (∀ ms : Nat,
      (0 < ms / 1000 / 60 / 60 / 24 →
        formatUptime ms
          = toString (ms / 1000 / 60 / 60 / 24) ++ "d "
            ++ toString (ms / 1000 / 60 / 60 % 24) ++ "h") ∧
      (ms / 1000 / 60 / 60 / 24 = 0 → 0 < ms / 1000 / 60 / 60 →
        formatUptime ms
          = toString (ms / 1000 / 60 / 60) ++ "h "
            ++ toString (ms / 1000 / 60 % 60) ++ "m") ∧
      (ms / 1000 / 60 / 60 = 0 → 0 < ms / 1000 / 60 →
        formatUptime ms
          = toString (ms / 1000 / 60) ++ "m "
            ++ toString (ms / 1000 % 60) ++ "s") ∧
      (ms / 1000 / 60 = 0 →
        formatUptime ms = toString (ms / 1000) ++ "s")) ∧
    formatUptime 30000 = "30s" ∧
    formatUptime 150000 = "2m 30s" ∧
    formatUptime 7200000 = "2h 0m" ∧
    formatUptime 90000000 = "1d 1h" := by
  refine ⟨?_, by decide, by decide, by decide, by decide⟩
  intro ms
  refine ⟨?_, ?_, ?_, ?_⟩
  · intro hd
    simp only [formatUptime]
    rw [if_pos hd]
  · intro hd hh
    simp only [formatUptime]
    rw [if_neg (by omega), if_pos hh]
  · intro hh hm
    have hd : ms / 1000 / 60 / 60 / 24 = 0 := by omega
    simp only [formatUptime]
    rw [if_neg (by omega), if_neg (by omega), if_pos hm]
  · intro hm
    have hh : ms / 1000 / 60 / 60 = 0 := by omega
    have hd : ms / 1000 / 60 / 60 / 24 = 0 := by omega
    simp only [formatUptime]
    rw [if_neg (by omega), if_neg (by omega), if_neg (by omega)]

/-- Witness for claim C9: each unit-pair arm applied at a concrete elapsed
time, with its guards discharged there. -/
theorem claim_C9_witness :
    formatUptime 90000000 = "1d 1h" ∧ formatUptime 7200000 = "2h 0m" ∧
    formatUptime 150000 = "2m 30s" ∧ formatUptime 30000 = "30s" := by
  refine ⟨?_, ?_, ?_, ?_⟩
  · rw [(claim_C9_formatUptime_unit_pairs.1 90000000).1 (by decide)]
    rfl
  · rw [(claim_C9_formatUptime_unit_pairs.1 7200000).2.1 (by decide) (by decide)]
    rfl
  · rw [(claim_C9_formatUptime_unit_pairs.1 150000).2.2.1 (by decide) (by decide)]
    rfl
  · rw [(claim_C9_formatUptime_unit_pairs.1 30000).2.2.2 (by decide)]
    rfl

/-- Claim C10: the route-hit key construction is not injective over
(source, target) pairs — the distinct pairs ("a", "b->c") and ("a->b", "c")
both produce the key "a->b->c", so recording a hit for each merges them
into a single `routeHits` entry of count 2, indistinguishable downstream. -/
theorem claim_C10_routeKey_not_injective :
    routeKey "a" "b->c" = routeKey "a->b" "c" ∧
    (("a", "b->c") : String × String) ≠ ("a->b", "c") ∧
    recordRouteHit "a" "b->c" (recordRouteHit "a->b" "c" statsZero)
      = { statsZero with routeHits := [("a->b->c", 2)] } ∧
    hitCount "a->b->c"
        (recordRouteHit "a" "b->c" (recordRouteHit "a->b" "c" statsZero)).routeHits
      = 2 := by
  refine ⟨by decide, by decide, by decide, by decide⟩

end WoprRouter
